import Mathlib

/-!
Verification of the flight-fare prediction pipeline (`src/app.py`).

The program is a single-page form app: it collects flight attributes,
encodes the categorical ones against fixed vocabularies, decomposes the
journey date and the two wall-clock times, assembles an 11-element
feature vector, scales it, and runs one model inference.

This file shallowly embeds the pipeline of `main` (app.py lines 57-116)
together with the startup artifact loading (lines 8-25), and proves the
specified properties about it. Machine floats carry only pass-through
values here (duration, the scaled vector, the fare), so `Rat` stands in
for them; the trained scaler and model are opaque external artifacts and
are embedded as function-valued parameters.
-/

namespace FlightApp

/-- `airline_options` from app.py line 32, in source order. -/
def airline_options : List String :=
  ["Air India", "AirAsia", "GoAir", "IndiGo", "SpiceJet", "Vistara"]

/-- `city_options` from app.py line 33, in source order. -/
def city_options : List String :=
  ["Bangalore", "Chennai", "Delhi", "Hyderabad", "Kolkata", "Mumbai"]

/-- `class_options` from app.py line 34, in source order. -/
def class_options : List String :=
  ["Economy", "Business"]

/-- Python `list.index`: position of the first occurrence, or failure
(`ValueError`) when the value is absent.  Used at app.py lines 76-79. -/
def pyIndex (l : List String) (x : String) : Option Nat :=
  match l with
  | [] => none
  | a :: rest => if a = x then some 0 else (pyIndex rest x).map (· + 1)

/-! ## Dates

`journey_date` is a `datetime.date`; app.py lines 65-67 read `.month`,
`.day` and `.weekday()`.  `date.weekday()` is `(toordinal() + 6) % 7`
in the proleptic Gregorian calendar, with Monday = 0. -/

/-- A calendar date as the proleptic Gregorian triple used by
`datetime.date`. -/
structure Date where
  year : Nat
  month : Nat
  day : Nat
deriving DecidableEq, Repr

/-- Gregorian leap-year rule, as in `calendar.isleap`. -/
def isLeap (y : Nat) : Bool :=
  y % 4 == 0 && (y % 100 != 0 || y % 400 == 0)

/-- Days in the months preceding month `m` of a common year
(`_DAYS_BEFORE_MONTH` in CPython's `datetime`). -/
def daysBeforeMonthTable : List Nat :=
  [0, 31, 59, 90, 120, 151, 181, 212, 243, 273, 304, 334]

/-- Days in year `y` preceding the first of month `m`. -/
def daysBeforeMonth (y m : Nat) : Nat :=
  daysBeforeMonthTable.getD (m - 1) 0 + (if 2 < m && isLeap y then 1 else 0)

/-- Days before January 1 of year `y` (CPython `_days_before_year`). -/
def daysBeforeYear (y : Nat) : Nat :=
  let yp := y - 1
  yp * 365 + yp / 4 - yp / 100 + yp / 400

/-- `date.toordinal()`: day number with 0001-01-01 as day 1. -/
def toOrdinal (d : Date) : Nat :=
  daysBeforeYear d.year + daysBeforeMonth d.year d.month + d.day

/-- `date.weekday()`: 0 = Monday .. 6 = Sunday. -/
def weekday (d : Date) : Nat :=
  (toOrdinal d + 6) % 7

/-! ## Time parsing

App.py lines 70-71 call `pd.to_datetime(s, format='%H:%M')`, which
matches the whole string against strptime's `%H:%M`: `%H` is the regex
alternation `2[0-3]|[0-1]\d|\d` and `%M` is `[0-5]\d|\d`, separated by a
literal colon, with nothing left over.  On a mismatch a `ValueError` is
raised.  Lines 72-73 then read only `.hour`, discarding the minutes. -/

/-- The regex class `\d` on an ASCII digit character. -/
def isDig (c : Char) : Bool := 48 ≤ c.toNat && c.toNat ≤ 57

/-- Numeric value of an ASCII digit character. -/
def digitVal (c : Char) : Nat := c.toNat - 48

/-- Match `[0-5]\d|\d` against the whole remaining input (the minutes
field must end the string). -/
def matchMinutesEnd : List Char → Option Nat
  | [c1, c2] =>
      if isDig c1 && isDig c2 && decide (digitVal c1 ≤ 5) then
        some (10 * digitVal c1 + digitVal c2)
      else none
  | [c] => if isDig c then some (digitVal c) else none
  | _ => none

/-- Match the literal `:` then the minutes field to the end. -/
def matchColonMinutes : List Char → Option Nat
  | c :: rest => if c = ':' then matchMinutesEnd rest else none
  | [] => none

/-- Full-string match of `%H:%M`, including the regex backtracking from
a two-digit hour to a one-digit hour, returning (hour, minute). -/
def parseTimeHM (s : String) : Option (Nat × Nat) :=
  match s.data with
  | c1 :: c2 :: rest =>
      let twoDigit : Option (Nat × Nat) :=
        if isDig c1 && isDig c2
            && decide (10 * digitVal c1 + digitVal c2 ≤ 23) then
          (matchColonMinutes rest).map
            (fun m => (10 * digitVal c1 + digitVal c2, m))
        else none
      match twoDigit with
      | some r => some r
      | none =>
          if isDig c1 then
            (matchColonMinutes (c2 :: rest)).map (fun m => (digitVal c1, m))
          else none
  | _ => none

/-! ## The pipeline -/

/-- The three loaded artifacts.  The scaler and the model are opaque
trained objects (external collaborators); given fixed artifacts,
`scaler.transform` and `model.predict` are fixed functions of their
input, here over `Rat` in place of machine floats. -/
structure Artifacts where
  scaler : List Rat → List Rat
  model : List Rat → Rat

/-- The raw form input (`FlightQuery`): widget values read by `main`. -/
structure FlightQuery where
  airline : String
  source_city : String
  destination_city : String
  departure_time : String
  arrival_time : String
  duration : Rat
  total_stops : Nat
  flight_class : String
  journey_date : Date

/-- A Python exception escaping the `try` block of lines 63-111:
`ValueError` (raised by `pd.to_datetime` on a format mismatch and by
`list.index` on an absent value) or anything else. -/
inductive PyExc where
  | valueError : PyExc
  | otherExc : PyExc
deriving DecidableEq, Repr

/-- The error messages the user can see after pressing Predict:
the route check at line 60, the `except ValueError` handler at line 114,
and the catch-all handler at line 116. -/
inductive DisplayedError where
  | invalidRoute : DisplayedError
  | invalidTimeFormat : DisplayedError
  | genericError : DisplayedError
deriving DecidableEq, Repr

/-- The message string shown for each error (app.py lines 60, 114, 116;
the catch-all interpolates the exception text). -/
def errorMessage : DisplayedError → String
  | .invalidRoute => "❌ Source and destination cities cannot be the same!"
  | .invalidTimeFormat =>
      "❌ Invalid time format. Please use HH:MM format (e.g., 14:30)"
  | .genericError => "❌ An error occurred: ..."

/-- The successful outcome: the assembled feature vector, the scaled
vector, and the scalar fare shown to the user. -/
structure PredictionResult where
  vector : List Rat
  scaled : List Rat
  fare : Rat
deriving DecidableEq

/-- The `try` block, app.py lines 63-111, in source order: date
decomposition (cannot fail), the two time parses, the four `.index`
encodings, vector assembly (lines 82-94), scaling and prediction
(lines 97-98). -/
def tryBlock (a : Artifacts) (q : FlightQuery) :
    Except PyExc PredictionResult :=
  let journey_month := q.journey_date.month
  let journey_day := q.journey_date.day
  let journey_dayofweek := weekday q.journey_date
  match parseTimeHM q.departure_time with
  | none => .error .valueError
  | some (departure_hour, _) =>
  match parseTimeHM q.arrival_time with
  | none => .error .valueError
  | some (arrival_hour, _) =>
  match pyIndex airline_options q.airline with
  | none => .error .valueError
  | some airline_enc =>
  match pyIndex city_options q.source_city with
  | none => .error .valueError
  | some source_city_enc =>
  match pyIndex city_options q.destination_city with
  | none => .error .valueError
  | some destination_city_enc =>
  match pyIndex class_options q.flight_class with
  | none => .error .valueError
  | some class_enc =>
  let input_data : List Rat :=
    [airline_enc, source_city_enc, destination_city_enc,
     q.duration, q.total_stops, class_enc,
     journey_month, journey_day, journey_dayofweek,
     departure_hour, arrival_hour]
  let scaled_input := a.scaler input_data
  let prediction := a.model scaled_input
  .ok ⟨input_data, scaled_input, prediction⟩

/-- The whole predict-button handler, app.py lines 57-116: the route
check first (lines 59-61), then the `try` block with its two handlers
(`except ValueError` → the invalid-time-format message, `except
Exception` → the generic message). -/
def runPipeline (a : Artifacts) (q : FlightQuery) :
    Except DisplayedError PredictionResult :=
  if q.source_city = q.destination_city then
    .error .invalidRoute
  else
    match tryBlock a q with
    | .ok r => .ok r
    | .error .valueError => .error .invalidTimeFormat
    | .error .otherExc => .error .genericError

/-! ## Startup -/

/-- The artifact files `load_artifacts` reads (app.py lines 12-14). -/
def artifactFiles : List String :=
  ["flight_fare_model.joblib", "scaler.joblib", "label_encoders.joblib"]

/-- `load_artifacts` succeeds exactly when every artifact file is
present (a missing one raises `FileNotFoundError`, caught at line 16,
which shows the diagnostic and returns `None`). -/
def loadOk (present : String → Bool) : Bool :=
  artifactFiles.all present

/-- Page-level events observable at startup. -/
inductive UIEvent where
  | diagnostic : UIEvent
  | title : UIEvent
  | formRendered : UIEvent
deriving DecidableEq, Repr

/-- What `main` renders before any button press: on a failed load,
the diagnostic from line 17 and then `st.stop()` at line 25 (nothing
further); on success, the title and the input form (lines 28-55). -/
def startupEvents (present : String → Bool) : List UIEvent :=
  if loadOk present then [.title, .formRendered] else [.diagnostic]

/-! ## Concrete instances used in witnesses -/

/-- An identity scaler and a constant model, standing in for one fixed
choice of loaded artifacts. -/
def constArtifacts : Artifacts := ⟨fun v => v, fun _ => 5000⟩

/-- The documented scenario query: IndiGo, Delhi → Mumbai, 2 hours,
nonstop, Economy, 2024-03-15, departing 10:00, arriving 12:00. -/
def scenarioQuery : FlightQuery :=
  ⟨"IndiGo", "Delhi", "Mumbai", "10:00", "12:00", 2, 0, "Economy",
   ⟨2024, 3, 15⟩⟩

/-- The scenario query with an airline outside the fixed vocabulary. -/
def unknownAirlineQuery : FlightQuery :=
  { scenarioQuery with airline := "Jet Airways" }

/-- The scenario query with both cities set to Delhi. -/
def delhiDelhiQuery : FlightQuery :=
  { scenarioQuery with destination_city := "Delhi" }

/-- The scenario query with the out-of-range departure time 14:65. -/
def badTimeQuery : FlightQuery :=
  { scenarioQuery with departure_time := "14:65" }

/-- The scenario query departing at 14:30. -/
def truncQuery : FlightQuery :=
  { scenarioQuery with departure_time := "14:30" }

/-- The scenario query with the unpadded departure time 9:5. -/
def lenientQuery : FlightQuery :=
  { scenarioQuery with departure_time := "9:5" }

/-- The feature vector of the scenario query, with the code's
vocabulary indices: IndiGo = 3, Delhi = 2, Mumbai = 5, Economy = 0,
March 15 on a Friday (weekday 4), hours 10 and 12. -/
def scenVec : List Rat := [3, 2, 5, 2, 0, 0, 3, 15, 4, 10, 12]

/-- The prediction result for the scenario query under
`constArtifacts` (identity scaler, constant model). -/
def scenResult : PredictionResult := ⟨scenVec, scenVec, 5000⟩

instance {ε α : Type} [DecidableEq ε] [DecidableEq α] :
    DecidableEq (Except ε α) := fun x y =>
  match x, y with
  | .ok a, .ok b =>
      if h : a = b then .isTrue (by rw [h]) else .isFalse (by simp [h])
  | .error e, .error f =>
      if h : e = f then .isTrue (by rw [h]) else .isFalse (by simp [h])
  | .ok _, .error _ => .isFalse (by simp)
  | .error _, .ok _ => .isFalse (by simp)

/-! ## Helper lemmas -/

theorem pyIndex_get (l : List String) (x : String) :
    ∀ i, pyIndex l x = some i → l.get? i = some x := by
  induction l with
  | nil => intro i h; simp [pyIndex] at h
  | cons a rest ih =>
    intro i h
    by_cases hax : a = x
    · simp [pyIndex, hax] at h
      subst h
      simp [hax]
    · simp only [pyIndex, if_neg hax, Option.map_eq_some'] at h
      obtain ⟨j, hj, hij⟩ := h
      subst hij
      simpa using ih j hj

theorem pyIndex_of_mem (l : List String) (x : String) (h : x ∈ l) :
    ∃ i, pyIndex l x = some i := by
  induction l with
  | nil => cases h
  | cons a rest ih =>
    by_cases hax : a = x
    · exact ⟨0, by simp [pyIndex, hax]⟩
    · have hx : x ∈ rest := by
        rcases List.mem_cons.mp h with h' | h'
        · exact absurd h'.symm hax
        · exact h'
      obtain ⟨j, hj⟩ := ih hx
      exact ⟨j + 1, by simp [pyIndex, hax, hj]⟩

theorem digitVal_le_of_isDig (c : Char) (h : isDig c = true) :
    digitVal c ≤ 9 := by
  simp only [isDig, Bool.and_eq_true, decide_eq_true_eq] at h
  unfold digitVal
  omega

theorem matchMinutesEnd_le (cs : List Char) (m : Nat)
    (h : matchMinutesEnd cs = some m) : m ≤ 59 := by
  rcases cs with _ | ⟨c1, _ | ⟨c2, _ | ⟨c3, rest⟩⟩⟩
  · simp [matchMinutesEnd] at h
  · simp only [matchMinutesEnd] at h
    split at h
    · rename_i hc
      have := digitVal_le_of_isDig c1 hc
      simp only [Option.some.injEq] at h
      omega
    · simp at h
  · simp only [matchMinutesEnd] at h
    split at h
    · rename_i hcond
      simp only [Bool.and_eq_true, decide_eq_true_eq] at hcond
      have h2 := digitVal_le_of_isDig c2 hcond.1.2
      simp only [Option.some.injEq] at h
      omega
    · simp at h
  · simp [matchMinutesEnd] at h

theorem parseTimeHM_bounds (s : String) (h m : Nat)
    (hp : parseTimeHM s = some (h, m)) : h ≤ 23 ∧ m ≤ 59 := by
  unfold parseTimeHM at hp
  rcases hs : s.data with _ | ⟨c1, t⟩
  · rw [hs] at hp; simp at hp
  rcases t with _ | ⟨c2, rest⟩
  · rw [hs] at hp; simp at hp
  rw [hs] at hp
  simp only at hp
  split at hp
  · rename_i r hr
    -- the two-digit hour alternative matched
    split at hr
    · rename_i hcond
      simp only [Bool.and_eq_true, decide_eq_true_eq] at hcond
      simp only [Option.map_eq_some'] at hr
      obtain ⟨mm, hmm, hrr⟩ := hr
      rcases hrr
      simp only [Option.some.injEq, Prod.mk.injEq] at hp
      obtain ⟨hh, hm⟩ := hp
      subst hh; subst hm
      refine ⟨hcond.2, ?_⟩
      unfold matchColonMinutes at hmm
      split at hmm
      · rename_i hcolon
        split at hmm
        · exact matchMinutesEnd_le _ _ hmm
        · simp at hmm
      · simp at hmm
    · simp at hr
  · -- backtracked to the one-digit hour alternative
    split at hp
    · rename_i hc1
      simp only [Option.map_eq_some'] at hp
      obtain ⟨mm, hmm, hpp⟩ := hp
      have h1 := digitVal_le_of_isDig c1 hc1
      unfold matchColonMinutes at hmm
      split at hmm
      · split at hmm
        · have := matchMinutesEnd_le _ _ hmm
          simp only [Prod.mk.injEq] at hpp
          obtain ⟨hh, hm⟩ := hpp
          subst hh; subst hm
          omega
        · simp at hmm
      · simp at hmm
    · simp at hp

theorem tryBlock_ok (a : Artifacts) (q : FlightQuery) (r : PredictionResult)
    (h : tryBlock a q = .ok r) :
    ∃ dh dm ah am ae se de ce,
      parseTimeHM q.departure_time = some (dh, dm) ∧
      parseTimeHM q.arrival_time = some (ah, am) ∧
      pyIndex airline_options q.airline = some ae ∧
      pyIndex city_options q.source_city = some se ∧
      pyIndex city_options q.destination_city = some de ∧
      pyIndex class_options q.flight_class = some ce ∧
      r.vector = [(ae : Rat), se, de, q.duration, q.total_stops, ce,
        q.journey_date.month, q.journey_date.day, weekday q.journey_date,
        dh, ah] ∧
      r.scaled = a.scaler r.vector ∧
      r.fare = a.model r.scaled := by
  unfold tryBlock at h
  rcases hdep : parseTimeHM q.departure_time with _ | ⟨dh, dm⟩ <;>
    rw [hdep] at h
  · simp at h
  rcases harr : parseTimeHM q.arrival_time with _ | ⟨ah, am⟩ <;>
    rw [harr] at h
  · simp at h
  rcases hair : pyIndex airline_options q.airline with _ | ae <;>
    rw [hair] at h
  · simp at h
  rcases hsrc : pyIndex city_options q.source_city with _ | se <;>
    rw [hsrc] at h
  · simp at h
  rcases hdst : pyIndex city_options q.destination_city with _ | de <;>
    rw [hdst] at h
  · simp at h
  rcases hcls : pyIndex class_options q.flight_class with _ | ce <;>
    rw [hcls] at h
  · simp at h
  obtain ⟨rv, rs, rf⟩ := r
  simp only [Except.ok.injEq, PredictionResult.mk.injEq] at h
  obtain ⟨hv, hs, hf⟩ := h
  subst hv; subst hs; subst hf
  exact ⟨dh, dm, ah, am, ae, se, de, ce, rfl, rfl, rfl, rfl, rfl, rfl,
    rfl, rfl, rfl⟩

theorem runPipeline_ok (a : Artifacts) (q : FlightQuery)
    (r : PredictionResult) (h : runPipeline a q = .ok r) :
    q.source_city ≠ q.destination_city ∧ tryBlock a q = .ok r := by
  unfold runPipeline at h
  split at h
  · simp at h
  · rename_i hne
    refine ⟨hne, ?_⟩
    rcases htb : tryBlock a q with e | r' <;> rw [htb] at h
    · cases e <;> simp at h
    · simp only [Except.ok.injEq] at h
      rw [h]

theorem runPipeline_of_valueError (a : Artifacts) (q : FlightQuery)
    (hne : q.source_city ≠ q.destination_city)
    (htb : tryBlock a q = .error .valueError) :
    runPipeline a q = .error .invalidTimeFormat := by
  unfold runPipeline
  rw [if_neg hne, htb]

theorem tryBlock_valueError_of_badTime (a : Artifacts) (q : FlightQuery)
    (hbad : parseTimeHM q.departure_time = none ∨
      parseTimeHM q.arrival_time = none) :
    tryBlock a q = .error .valueError := by
  unfold tryBlock
  rcases hdep : parseTimeHM q.departure_time with _ | ⟨dh, dm⟩
  · rfl
  rcases harr : parseTimeHM q.arrival_time with _ | ⟨ah, am⟩
  · rfl
  rcases hbad with hb | hb <;> simp_all

theorem tryBlock_valueError_of_unknown (a : Artifacts) (q : FlightQuery)
    (hunk : pyIndex airline_options q.airline = none ∨
      pyIndex city_options q.source_city = none ∨
      pyIndex city_options q.destination_city = none ∨
      pyIndex class_options q.flight_class = none) :
    tryBlock a q = .error .valueError := by
  unfold tryBlock
  rcases hdep : parseTimeHM q.departure_time with _ | ⟨dh, dm⟩
  · rfl
  rcases harr : parseTimeHM q.arrival_time with _ | ⟨ah, am⟩
  · rfl
  rcases hair : pyIndex airline_options q.airline with _ | ae
  · rfl
  rcases hsrc : pyIndex city_options q.source_city with _ | se
  · rfl
  rcases hdst : pyIndex city_options q.destination_city with _ | de
  · rfl
  rcases hcls : pyIndex class_options q.flight_class with _ | ce
  · rfl
  rcases hunk with hu | hu | hu | hu <;> simp_all

/-! ## Claim theorems -/

/-- C1: for every query that passes validation (route check, time
parsing, vocabulary encoding), the assembled feature vector has exactly
11 numeric elements in the fixed order [airline_code, source_code,
destination_code, duration, stops, class_code, month, day_of_month,
day_of_week, departure_hour, arrival_hour]. -/
theorem C1_feature_vector_shape (a : Artifacts) (q : FlightQuery)
    (r : PredictionResult) (h : runPipeline a q = .ok r) :
    r.vector.length = 11 ∧
    ∃ ae se de ce dh dm ah am,
      pyIndex airline_options q.airline = some ae ∧
      pyIndex city_options q.source_city = some se ∧
      pyIndex city_options q.destination_city = some de ∧
      pyIndex class_options q.flight_class = some ce ∧
      parseTimeHM q.departure_time = some (dh, dm) ∧
      parseTimeHM q.arrival_time = some (ah, am) ∧
      r.vector = [(ae : Rat), se, de, q.duration, q.total_stops, ce,
        q.journey_date.month, q.journey_date.day, weekday q.journey_date,
        dh, ah] := by
  obtain ⟨-, htb⟩ := runPipeline_ok a q r h
  obtain ⟨dh, dm, ah, am, ae, se, de, ce, h1, h2, h3, h4, h5, h6, hv,
    -, -⟩ := tryBlock_ok a q r htb
  exact ⟨by simp [hv], ae, se, de, ce, dh, dm, ah, am, h3, h4, h5, h6,
    h1, h2, hv⟩

/-- C1 witness: the scenario query produces an 11-element vector. -/
theorem C1_feature_vector_shape_witness : scenResult.vector.length = 11 :=
  (C1_feature_vector_shape constArtifacts scenarioQuery scenResult
    (by decide)).1

/-- C2 counterexample: an airline outside the fixed vocabulary is
rejected, but the message shown is the invalid-time-format one, not the
generic one — `list.index` raises `ValueError`, which the
`except ValueError` handler at line 113 catches first. -/
theorem C2_unknown_category_counterexample :
    runPipeline constArtifacts unknownAirlineQuery =
      .error .invalidTimeFormat ∧
    DisplayedError.invalidTimeFormat ≠ DisplayedError.genericError := by
  exact ⟨by decide, by decide⟩

/-- C2 (amended): a categorical value outside its fixed vocabulary that
reaches the encoder fails loudly — no code is silently substituted and
no result is produced — but the failure is surfaced as the
invalid-time-format error, not as the generic error. -/
theorem C2_unknown_category_fails (a : Artifacts) (q : FlightQuery)
    (hne : q.source_city ≠ q.destination_city)
    (hunk : pyIndex airline_options q.airline = none ∨
      pyIndex city_options q.source_city = none ∨
      pyIndex city_options q.destination_city = none ∨
      pyIndex class_options q.flight_class = none) :
    runPipeline a q = .error .invalidTimeFormat ∧
    ∀ r : PredictionResult, runPipeline a q ≠ .ok r := by
  have h := runPipeline_of_valueError a q hne
    (tryBlock_valueError_of_unknown a q hunk)
  exact ⟨h, fun r hr => by rw [h] at hr; cases hr⟩

/-- C2 witness: instantiation at the unknown-airline query. -/
theorem C2_unknown_category_fails_witness :
    runPipeline constArtifacts unknownAirlineQuery =
      .error .invalidTimeFormat :=
  (C2_unknown_category_fails constArtifacts unknownAirlineQuery
    (by decide) (Or.inl (by decide))).1

/-- C3: a query with equal source and destination cities is rejected
with the invalid-route error before any feature derivation: the result
does not depend on the artifacts (the model is never invoked) nor on
any field other than the two cities (no date, time or encoding work is
done, no partial vector is built). -/
theorem C3_invalid_route (a : Artifacts) (q : FlightQuery)
    (h : q.source_city = q.destination_city) :
    runPipeline a q = .error .invalidRoute ∧
    ∀ (a' : Artifacts) (q' : FlightQuery),
      q'.source_city = q.source_city →
      q'.destination_city = q.destination_city →
      runPipeline a' q' = .error .invalidRoute := by
  constructor
  · simp [runPipeline, h]
  · intro a' q' h1 h2
    have hq : q'.source_city = q'.destination_city :=
      h1.trans (h.trans h2.symm)
    simp [runPipeline, hq]

/-- C3 witness: Delhi → Delhi is rejected with the invalid-route
error. -/
theorem C3_invalid_route_witness :
    runPipeline constArtifacts delhiDelhiQuery = .error .invalidRoute :=
  (C3_invalid_route constArtifacts delhiDelhiQuery rfl).1

/-- C4: a time string that does not match `%H:%M` makes the pipeline
stop with the invalid-time-format error, whose message names the
expected HH:MM format; the result does not depend on the artifacts (no
scaling, no model call); "14:65", "25:00" and "abc" all fail to
parse. -/
theorem C4_invalid_time (a : Artifacts) (q : FlightQuery)
    (hne : q.source_city ≠ q.destination_city)
    (hbad : parseTimeHM q.departure_time = none ∨
      parseTimeHM q.arrival_time = none) :
    runPipeline a q = .error .invalidTimeFormat ∧
    (∀ a' : Artifacts, runPipeline a' q = .error .invalidTimeFormat) ∧
    (∃ before after, (errorMessage .invalidTimeFormat).data =
      before ++ "HH:MM".data ++ after) ∧
    parseTimeHM "14:65" = none ∧ parseTimeHM "25:00" = none ∧
    parseTimeHM "abc" = none := by
  refine ⟨runPipeline_of_valueError a q hne
      (tryBlock_valueError_of_badTime a q hbad),
    fun a' => runPipeline_of_valueError a' q hne
      (tryBlock_valueError_of_badTime a' q hbad),
    ⟨"❌ Invalid time format. Please use ".data,
     " format (e.g., 14:30)".data, by decide⟩,
    by decide, by decide, by decide⟩

/-- C4 witness: departure time 14:65 is rejected with the
invalid-time-format error. -/
theorem C4_invalid_time_witness :
    runPipeline constArtifacts badTimeQuery = .error .invalidTimeFormat :=
  (C4_invalid_time constArtifacts badTimeQuery (by decide)
    (Or.inl (by decide))).1

/-- C5: for every valid HH:MM time the derived hour features are the
integer hour components (0-23) with the minutes truncated, and in
particular "14:30" parses to hour 14, minute 30 (the minute being
discarded by the pipeline, which only reads `.hour`). -/
theorem C5_hour_truncation (a : Artifacts) (q : FlightQuery)
    (r : PredictionResult) (dh dm ah am : Nat)
    (hdep : parseTimeHM q.departure_time = some (dh, dm))
    (harr : parseTimeHM q.arrival_time = some (ah, am))
    (h : runPipeline a q = .ok r) :
    dh ≤ 23 ∧ ah ≤ 23 ∧
    r.vector.get? 9 = some (dh : Rat) ∧
    r.vector.get? 10 = some (ah : Rat) ∧
    parseTimeHM "14:30" = some (14, 30) := by
  obtain ⟨-, htb⟩ := runPipeline_ok a q r h
  obtain ⟨dh', dm', ah', am', ae, se, de, ce, h1, h2, -, -, -, -, hv,
    -, -⟩ := tryBlock_ok a q r htb
  rw [hdep] at h1
  rw [harr] at h2
  simp only [Option.some.injEq, Prod.mk.injEq] at h1 h2
  obtain ⟨hdh, -⟩ := h1
  obtain ⟨hah, -⟩ := h2
  subst hdh; subst hah
  exact ⟨(parseTimeHM_bounds _ _ _ hdep).1,
    (parseTimeHM_bounds _ _ _ harr).1, by simp [hv], by simp [hv],
    by decide⟩

/-- C5 witness: with departure 14:30, position 9 of the vector is
exactly 14. -/
theorem C5_hour_truncation_witness :
    (⟨[3, 2, 5, 2, 0, 0, 3, 15, 4, 14, 12],
      [3, 2, 5, 2, 0, 0, 3, 15, 4, 14, 12], 5000⟩ :
      PredictionResult).vector.get? 9 = some (14 : Rat) :=
  (C5_hour_truncation constArtifacts truncQuery
    ⟨[3, 2, 5, 2, 0, 0, 3, 15, 4, 14, 12],
     [3, 2, 5, 2, 0, 0, 3, 15, 4, 14, 12], 5000⟩
    14 30 12 0 (by decide) (by decide) (by decide)).2.2.1

/-- C6: the scenario IndiGo / Delhi → Mumbai / 2.0 h / 0 stops /
Economy / 2024-03-15 / 10:00 → 12:00 yields the feature vector
[3, 2, 5, 2.0, 0, 0, 3, 15, 4, 10, 12] for any loaded artifacts, with
the vocabulary indices IndiGo = 3, Delhi = 2, Mumbai = 5, Economy = 0
and the weekday convention 0 = Monday .. 6 = Sunday giving 4 for the
Friday 2024-03-15. -/
theorem C6_scenario_vector (a : Artifacts) :
    ∃ r, runPipeline a scenarioQuery = .ok r ∧
      r.vector = [3, 2, 5, 2, 0, 0, 3, 15, 4, 10, 12] ∧
      pyIndex airline_options "IndiGo" = some 3 ∧
      pyIndex city_options "Delhi" = some 2 ∧
      pyIndex city_options "Mumbai" = some 5 ∧
      pyIndex class_options "Economy" = some 0 ∧
      weekday ⟨2024, 3, 15⟩ = 4 := by
  refine ⟨⟨[3, 2, 5, 2, 0, 0, 3, 15, 4, 10, 12],
    a.scaler [3, 2, 5, 2, 0, 0, 3, 15, 4, 10, 12],
    a.model (a.scaler [3, 2, 5, 2, 0, 0, 3, 15, 4, 10, 12])⟩,
    ?_, rfl, by decide, by decide, by decide, by decide, by decide⟩
  rfl

/-- C7: every value of a fixed categorical vocabulary round-trips:
encoding it to its zero-based position and looking that position back
up in the same vocabulary recovers the original name. -/
theorem C7_roundtrip (v : List String) (x : String)
    (_hv : v = airline_options ∨ v = city_options ∨ v = class_options)
    (hx : x ∈ v) :
    ∃ i, pyIndex v x = some i ∧ v.get? i = some x := by
  obtain ⟨i, hi⟩ := pyIndex_of_mem v x hx
  exact ⟨i, hi, pyIndex_get v x i hi⟩

/-- C7 witness: "IndiGo" round-trips through the airline vocabulary. -/
theorem C7_roundtrip_witness :
    ∃ i, pyIndex airline_options "IndiGo" = some i ∧
      airline_options.get? i = some "IndiGo" :=
  C7_roundtrip airline_options "IndiGo" (Or.inl rfl) (by decide)

/-- C8: the input form is rendered exactly when all three artifact
files are present; when any is missing the diagnostic is shown instead
and the form never appears — and this is the only condition that stops
startup. -/
theorem C8_startup_gate (present : String → Bool) :
    (UIEvent.formRendered ∈ startupEvents present ↔
      loadOk present = true) ∧
    (UIEvent.diagnostic ∈ startupEvents present ↔
      loadOk present = false) ∧
    (loadOk present = false ↔
      (present "flight_fare_model.joblib" = false ∨
       present "scaler.joblib" = false ∨
       present "label_encoders.joblib" = false)) := by
  cases h1 : present "flight_fare_model.joblib" <;>
    cases h2 : present "scaler.joblib" <;>
      cases h3 : present "label_encoders.joblib" <;>
        simp [startupEvents, loadOk, artifactFiles, h1, h2, h3]

/-- C9: given fixed artifacts the pipeline is a pure function — a
second run on the same validated query returns the same result — and
on success the scaled vector is exactly the scaler applied to the
feature vector and the fare exactly the model applied to the scaled
vector. -/
theorem C9_pure_deterministic (a : Artifacts) (q : FlightQuery)
    (r : PredictionResult) (h : runPipeline a q = .ok r) :
    (∀ r' : PredictionResult, runPipeline a q = .ok r' → r' = r) ∧
    r.scaled = a.scaler r.vector ∧
    r.fare = a.model r.scaled := by
  obtain ⟨-, htb⟩ := runPipeline_ok a q r h
  obtain ⟨dh, dm, ah, am, ae, se, de, ce, -, -, -, -, -, -, -, hs, hf⟩ :=
    tryBlock_ok a q r htb
  refine ⟨fun r' h' => ?_, hs, hf⟩
  rw [h] at h'
  simpa using h'.symm

/-- C9 witness: instantiation at the scenario query with the identity
scaler and a constant model. -/
theorem C9_pure_deterministic_witness :
    scenResult.scaled = constArtifacts.scaler scenResult.vector :=
  (C9_pure_deterministic constArtifacts scenarioQuery scenResult
    (by decide)).2.1

/-- C10: the `%H:%M` parse is lenient about zero padding: "9:5" is
accepted as hour 9, minute 5, and a query departing at "9:5" goes
through the whole pipeline with departure-hour feature 9 instead of
being rejected with the invalid-time-format error. -/
theorem C10_lenient_padding :
    parseTimeHM "9:5" = some (9, 5) ∧
    ∃ r, runPipeline constArtifacts lenientQuery = .ok r ∧
      r.vector.get? 9 = some (9 : Rat) := by
  refine ⟨by decide,
    ⟨[3, 2, 5, 2, 0, 0, 3, 15, 4, 9, 12],
     [3, 2, 5, 2, 0, 0, 3, 15, 4, 9, 12], 5000⟩, by decide, by decide⟩

end FlightApp
